import Mathlib

/-!
Verification of the comqtt cluster relay layer (package `cluster`,
`src/unnamed/part_000`): the RPC server handlers, the peer client pool
(`ClientManager`), the relay/broadcast client operations, and the
start/stop lifecycle of the gRPC server.

Shallow embedding conventions:
* Go byte slices (`[]byte`) become `List Nat` whose elements stand for bytes.
* Go `uint8(x)` on a wider integer becomes `x % 256`; request fields of Go
  type `uint32` are plain `Nat` (their admissible range is irrelevant to the
  narrowing claims, which are stated via `% 256`).
* The externally visible behaviour of a handler — the messages it sends on
  `agent.grpcMsgCh`, the response it returns, and the Go error value — is
  collected in a `HandlerResult` record.
* External collaborators (membership directory, dial outcomes, call
  outcomes) are parameters of the embedded functions.
-/

namespace Comqtt

/-- MQTT packet-type byte for CONNECT. Modelled from the spec: the constant
`packets.Connect` lives in `mqtt/packets`, which is not under `src/`; the
MQTT standard fixes the CONNECT packet type as 1. No claim depends on the
concrete value. -/
def packetsConnect : Nat := 1

/-- MQTT packet-type byte for PUBLISH. Modelled from the spec: the constant
`packets.Publish` lives in `mqtt/packets`, which is not under `src/`; the
MQTT standard fixes the PUBLISH packet type as 3. No claim depends on the
concrete value. -/
def packetsPublish : Nat := 3

/-- Message-type byte for a raft join. Modelled from the spec: the constant
`message.RaftJoin` lives in `cluster/message`, which is not under `src/`.
It is some fixed byte; no claim depends on the concrete value, only on its
being independent of the request. -/
def messageRaftJoin : Nat := 22

/-- The neutral record `message.Message` produced by the RPC server, with the
fields used in `src/unnamed/part_000` (Type, NodeID, ClientID,
ProtocolVersion, Payload). `Type` and `ProtocolVersion` are Go `uint8`
fields, so a well-formed value keeps them below 256. -/
structure Message where
  mtype : Nat
  NodeID : String
  ClientID : String
  ProtocolVersion : Nat
  Payload : List Nat
  deriving DecidableEq, Repr

/-- A `Message` whose byte-sized fields hold representable `uint8` values,
as any value of the Go struct does. -/
def Message.WF (m : Message) : Prop :=
  m.mtype < 256 ∧ m.ProtocolVersion < 256

instance (m : Message) : Decidable m.WF := by
  unfold Message.WF; infer_instance

/-- Wire request `crpc.PublishRequest` (fields NodeId, ClientId,
ProtocolVersion : uint32, Payload : bytes). -/
structure PublishRequest where
  NodeId : String
  ClientId : String
  ProtocolVersion : Nat
  Payload : List Nat
  deriving DecidableEq, Repr

/-- Wire request `crpc.ConnectRequest` (fields NodeId, ClientId). -/
structure ConnectRequest where
  NodeId : String
  ClientId : String
  deriving DecidableEq, Repr

/-- Wire request `crpc.ApplyRequest` (fields Action : uint32, NodeId,
Filter : bytes). -/
structure ApplyRequest where
  Action : Nat
  NodeId : String
  Filter : List Nat
  deriving DecidableEq, Repr

/-- Wire request `crpc.JoinRequest` (fields NodeId, Addr, Port : uint32). -/
structure JoinRequest where
  NodeId : String
  Addr : String
  Port : Nat
  deriving DecidableEq, Repr

/-- Wire response `crpc.Response` (field Ok). -/
structure Response where
  Ok : Bool
  deriving DecidableEq, Repr

/-- The externally visible outcome of one inbound handler invocation: the
messages sent on `s.agent.grpcMsgCh` in order, the returned response, and
the returned Go error (`none` = nil). -/
structure HandlerResult where
  sent : List Message
  resp : Response
  err : Option String
  deriving DecidableEq, Repr

/-- Embedding of Go `net.JoinHostPort`: wraps the host in square brackets
when it contains a colon (an IPv6 literal), then joins host and port with a
colon. -/
def joinHostPort (host port : String) : String :=
  if host.contains ':' then "[" ++ host ++ "]:" ++ port else host ++ ":" ++ port

/-- UTF-8-free byte view of an ASCII string, used for `[]byte(addr)` in the
`RaftJoin` handler (the spec fixes the payload as ASCII "host:port"). -/
def strBytes (s : String) : List Nat :=
  s.data.map Char.toNat

/-- Handler `RpcService.PublishPacket`: builds a `Message` with
`Type = packets.Publish`, copies NodeId/ClientId/Payload, narrows
`ProtocolVersion` with `uint8(·)`, sends it, returns `{Ok: true}` and nil
error. -/
def RpcService.PublishPacket (req : PublishRequest) : HandlerResult :=
  { sent := [{ mtype := packetsPublish
               NodeID := req.NodeId
               ClientID := req.ClientId
               ProtocolVersion := req.ProtocolVersion % 256
               Payload := req.Payload }]
    resp := { Ok := true }
    err := none }

/-- Handler `RpcService.ConnectNotify`: builds a `Message` with
`Type = packets.Connect`, copies NodeId/ClientId (other fields keep their
Go zero values), sends it, returns `{Ok: true}` and nil error. -/
def RpcService.ConnectNotify (req : ConnectRequest) : HandlerResult :=
  { sent := [{ mtype := packetsConnect
               NodeID := req.NodeId
               ClientID := req.ClientId
               ProtocolVersion := 0
               Payload := [] }]
    resp := { Ok := true }
    err := none }

/-- Handler `RpcService.RaftApply`: builds a `Message` with
`Type = uint8(req.Action)` — taken from the wire — copies NodeId and
Filter into Payload (ClientID and ProtocolVersion keep their Go zero
values), sends it, returns `{Ok: true}` and nil error. -/
def RpcService.RaftApply (req : ApplyRequest) : HandlerResult :=
  { sent := [{ mtype := req.Action % 256
               NodeID := req.NodeId
               ClientID := ""
               ProtocolVersion := 0
               Payload := req.Filter }]
    resp := { Ok := true }
    err := none }

/-- Handler `RpcService.RaftJoin`: joins `req.Addr` and `req.Port` with
`net.JoinHostPort`, builds a `Message` with `Type = message.RaftJoin` and
the address bytes as Payload, sends it, returns `{Ok: true}` and nil
error. -/
def RpcService.RaftJoin (req : JoinRequest) : HandlerResult :=
  { sent := [{ mtype := messageRaftJoin
               NodeID := req.NodeId
               ClientID := ""
               ProtocolVersion := 0
               Payload := strBytes (joinHostPort req.Addr (toString req.Port)) }]
    resp := { Ok := true }
    err := none }

/-- Kind (the `Type` field) of the single message a handler delivers. -/
def deliveredKind (r : HandlerResult) : Option Nat :=
  (r.sent.head?).map Message.mtype

/-- Membership record as the relay layer sees it. Modelled from the spec:
the `Member` type and the projection `getGrpcAddr` come from the membership
collaborator (`membership.Members`, `getGrpcAddr(m)`), which is not under
`src/`; a member exposes its `Name` and the projected "host:port" string. -/
structure Member where
  Name : String
  grpcAddr : String
  deriving DecidableEq, Repr

/-- Pool entry: the `client` struct wrapping a `grpc.ClientConn` and its
stub. `connId` is the identity of the underlying connection, numbered in
dial order, so that distinct dials yield distinct instances. -/
structure PoolClient where
  connId : Nat
  deriving DecidableEq, Repr

/-- State of a `ClientManager`: the `cs` map from node id to pool entry
(kept as an association list with distinct keys), the dial counter that
mints connection identities, and the connections closed so far (in the
order `conn.Close` was called). -/
structure ClientManager where
  cs : List (String × PoolClient)
  nextConn : Nat
  closed : List Nat
  deriving DecidableEq, Repr

/-- Collaborator environment of the pool: the membership snapshot, the
local node name (`agent.GetLocalName`), and the outcome of dialing a given
address (`true` = `grpc.DialContext` succeeds). -/
structure Env where
  members : List Member
  localName : String
  dialOk : String → Bool

/-- Map lookup on the association list backing `c.cs`. -/
def csLookup (cs : List (String × PoolClient)) (nodeId : String) : Option PoolClient :=
  match cs with
  | [] => none
  | (k, v) :: rest => if k = nodeId then some v else csLookup rest nodeId

/-- Map deletion (`delete(c.cs, nodeId)`) on the association list. -/
def csErase (cs : List (String × PoolClient)) (nodeId : String) : List (String × PoolClient) :=
  match cs with
  | [] => []
  | (k, v) :: rest => if k = nodeId then csErase rest nodeId else (k, v) :: csErase rest nodeId

/-- Membership lookup. Modelled from the spec:
`membership.GetMember(nodeId) -> Member | nil` finds the record whose name
is the node id. -/
def getNodeMember (ms : List Member) (nodeId : String) : Option Member :=
  ms.find? (fun m => m.Name = nodeId)

/-- Embedding of `ClientManager.getNodeAddr`: `none` when the member record
is absent (the Go function returns `("", error)`), otherwise the projected
address `getGrpcAddr(m)`. -/
def getNodeAddr (env : Env) (nodeId : String) : Option String :=
  (getNodeMember env.members nodeId).map Member.grpcAddr

/-- Embedding of `ClientManager.getClient`: return the cached entry when
present; otherwise resolve the address, failing with "node not found" when
the member is absent or the address is empty; otherwise dial, and on
success install a fresh entry in the cache. On every failure the state is
returned unchanged. -/
def ClientManager.getClient (env : Env) (cm : ClientManager) (nodeId : String) :
    Except String PoolClient × ClientManager :=
  match csLookup cm.cs nodeId with
  | some sc => (Except.ok sc, cm)
  | none =>
    match getNodeAddr env nodeId with
    | none => (Except.error "node not found", cm)
    | some addr =>
      if addr = "" then (Except.error "node not found", cm)
      else if env.dialOk addr then
        (Except.ok ⟨cm.nextConn⟩,
          { cm with cs := (nodeId, ⟨cm.nextConn⟩) :: cm.cs, nextConn := cm.nextConn + 1 })
      else (Except.error "dialing failed", cm)

/-- Embedding of `ClientManager.RemoveGrpcClient`: when an entry for
`nodeId` is present, delete it from the map and close its connection;
when absent, do nothing. -/
def ClientManager.RemoveGrpcClient (cm : ClientManager) (nodeId : String) : ClientManager :=
  match csLookup cm.cs nodeId with
  | some cl => { cm with cs := csErase cm.cs nodeId, closed := cl.connId :: cm.closed }
  | none => cm

/-- Pool invariant: every cached connection identity was minted by the dial
counter, hence is below it. -/
def PoolInv (cm : ClientManager) : Prop :=
  ∀ p ∈ cm.cs, p.2.connId < cm.nextConn

/-- One structured log event: the leading message (operation name) and the
key/value fields carried with it (`none` = the field is not part of the
event). Only events that report a failure (they carry the underlying
error) are modelled; the unconditional traffic log `OnConnectPacketLog`
carries no error and is outside this model. -/
structure LogEvent where
  op : String
  nodeId : Option String
  clientId : Option String
  err : Option String
  deriving DecidableEq, Repr

/-- Log events emitted by `ClientManager.RelayPublishPacket`, as a function
of the pool-acquisition outcome `gcErr` and the RPC outcome `callErr`
(`none` = success). A pool failure logs `get grpc client` with only the
error; a call failure logs `relay publish packet` with the target node id
and the client id of the message. -/
def ClientManager.RelayPublishPacket (gcErr callErr : Option String)
    (nodeId : String) (msg : Message) : List LogEvent :=
  match gcErr with
  | some e => [{ op := "get grpc client", nodeId := none, clientId := none, err := some e }]
  | none =>
    match callErr with
    | some e => [{ op := "relay publish packet", nodeId := some nodeId,
                   clientId := some msg.ClientID, err := some e }]
    | none => []

/-- Log events emitted by `ClientManager.ConnectNotifyToNode`: a pool
failure returns silently with no log at all; a call failure logs
`connection notification` with the target node id and client id. -/
def ClientManager.ConnectNotifyToNode (gcErr callErr : Option String)
    (nodeId clientId : String) : List LogEvent :=
  match gcErr with
  | some _ => []
  | none =>
    match callErr with
    | some e => [{ op := "connection notification", nodeId := some nodeId,
                   clientId := some clientId, err := some e }]
    | none => []

/-- Log events emitted by `ClientManager.RelayRaftApply`: a pool failure
logs `get grpc client` with only the error; a call failure emits the
structured apply log (`OnApplyLog`, message "to leader do apply") with the
target node id and the error. -/
def ClientManager.RelayRaftApply (gcErr callErr : Option String)
    (nodeId : String) (_msg : Message) : List LogEvent :=
  match gcErr with
  | some e => [{ op := "get grpc client", nodeId := none, clientId := none, err := some e }]
  | none =>
    match callErr with
    | some e => [{ op := "to leader do apply", nodeId := some nodeId,
                   clientId := none, err := some e }]
    | none => []

/-- Log events emitted by `ClientManager.RelayRaftJoin`: a pool failure
logs `get grpc client` with only the error; a call failure emits the
structured join log (`OnJoinLog`, message "raft join") with the target
node id and the error. -/
def ClientManager.RelayRaftJoin (gcErr callErr : Option String)
    (nodeId : String) : List LogEvent :=
  match gcErr with
  | some e => [{ op := "get grpc client", nodeId := none, clientId := none, err := some e }]
  | none =>
    match callErr with
    | some e => [{ op := "raft join", nodeId := some nodeId,
                   clientId := none, err := some e }]
    | none => []

/-- Embedding of `ClientManager.ConnectNotifyToOthers`: iterate the
membership snapshot in order, skip the entry equal to the local name, and
issue `ConnectNotifyToNode` for each remaining entry with the client id of
the message. Returns the targets visited, in order, and the log events.
Failures are injected per target through the oracles `gcErr` and
`callErr`. -/
def ClientManager.ConnectNotifyToOthers (ms : List Member) (localName : String)
    (gcErr callErr : String → Option String) (clientId : String) :
    List String × List LogEvent :=
  match ms with
  | [] => ([], [])
  | m :: rest =>
    let tail := ClientManager.ConnectNotifyToOthers rest localName gcErr callErr clientId
    if m.Name = localName then tail
    else (m.Name :: tail.1,
      ClientManager.ConnectNotifyToNode (gcErr m.Name) (callErr m.Name) m.Name clientId ++ tail.2)

/-- Embedding of `ClientManager.RaftApplyToOthers`: iterate the membership
snapshot in order, skip the local name, and issue `RelayRaftApply` for each
remaining entry. -/
def ClientManager.RaftApplyToOthers (ms : List Member) (localName : String)
    (gcErr callErr : String → Option String) (msg : Message) :
    List String × List LogEvent :=
  match ms with
  | [] => ([], [])
  | m :: rest =>
    let tail := ClientManager.RaftApplyToOthers rest localName gcErr callErr msg
    if m.Name = localName then tail
    else (m.Name :: tail.1,
      ClientManager.RelayRaftApply (gcErr m.Name) (callErr m.Name) m.Name msg ++ tail.2)

/-- Embedding of `ClientManager.RaftJoinToOthers`: iterate the membership
snapshot in order, skip the local name, and issue `RelayRaftJoin` for each
remaining entry. -/
def ClientManager.RaftJoinToOthers (ms : List Member) (localName : String)
    (gcErr callErr : String → Option String) :
    List String × List LogEvent :=
  match ms with
  | [] => ([], [])
  | m :: rest =>
    let tail := ClientManager.RaftJoinToOthers rest localName gcErr callErr
    if m.Name = localName then tail
    else (m.Name :: tail.1,
      ClientManager.RelayRaftJoin (gcErr m.Name) (callErr m.Name) m.Name ++ tail.2)

/-- Abstract handle to a `grpc.Server` value. -/
structure GrpcServer where
  id : Nat
  deriving DecidableEq, Repr

/-- The `RpcService` struct as far as the lifecycle claims see it: the
possibly-nil `grpcServer` field (the `agent` field plays no role here). -/
structure RpcService where
  grpcServer : Option GrpcServer
  deriving DecidableEq, Repr

/-- Constructor `NewRpcService`: only `agent` is set; the `grpcServer`
field keeps its zero value nil. -/
def NewRpcService : RpcService := { grpcServer := none }

/-- Externally visible outcome of one `StartRpcServer` call: the service
state afterwards, the returned error, whether `RegisterRelaysServer` was
called, and whether the serve goroutine was spawned. -/
structure StartOutcome where
  svc : RpcService
  returnedErr : Option String
  handlersRegistered : Bool
  serveTaskStarted : Bool
  deriving DecidableEq, Repr

/-- Embedding of `RpcService.StartRpcServer`, with `listenErr` the outcome
of `net.Listen` (`none` = success). On listen failure the error is
returned and nothing else happens. On success a new `grpc.Server` is
created and bound to the local variable `grpcServer`, handlers are
registered on it, the serve goroutine is spawned, and nil is returned; the
field `s.grpcServer` is never assigned anywhere in the function, so the
service state is unchanged in both branches. -/
def RpcService.StartRpcServer (s : RpcService) (listenErr : Option String) : StartOutcome :=
  match listenErr with
  | some e =>
    { svc := s, returnedErr := some e, handlersRegistered := false, serveTaskStarted := false }
  | none =>
    { svc := s, returnedErr := none, handlersRegistered := true, serveTaskStarted := true }

/-- Embedding of `RpcService.StopRpcServer` on a possibly-nil receiver:
returns whether `GracefulStop` was invoked. The body returns early when
the receiver or its `grpcServer` field is nil, and calls `GracefulStop`
otherwise; the receiver state is never mutated. -/
def StopRpcServer (s : Option RpcService) : Bool :=
  match s with
  | none => false
  | some svc => svc.grpcServer.isSome

/-- Body of the serve goroutine spawned by `StartRpcServer`: a serve error
is logged once (message "grpc server serve") and nothing is returned to
the caller of `StartRpcServer`. -/
def serveTask (serveErr : Option String) : List LogEvent :=
  match serveErr with
  | some e => [{ op := "grpc server serve", nodeId := none, clientId := none, err := some e }]
  | none => []

/-- Request built by `ClientManager.RelayPublishPacket` from a message
(`uint32` widening of the `uint8` protocol version). -/
def publishReqOfMsg (m : Message) : PublishRequest :=
  { NodeId := m.NodeID, ClientId := m.ClientID,
    ProtocolVersion := m.ProtocolVersion % 2 ^ 32, Payload := m.Payload }

/-- Request built by `ClientManager.RelayRaftApply` from a message
(`uint32` widening of the `uint8` message type into the action field). -/
def applyReqOfMsg (m : Message) : ApplyRequest :=
  { Action := m.mtype % 2 ^ 32, NodeId := m.NodeID, Filter := m.Payload }

/-- Modelled from the spec: the targets a broadcast must visit — every
entry of the membership snapshot except those whose name equals the local
name, in snapshot order. Used to compare the three broadcast loops against
the specified visiting discipline. -/
def specBroadcastTargets : List Member → String → List String
  | [], _ => []
  | m :: rest, ln =>
    if m.Name = ln then specBroadcastTargets rest ln
    else m.Name :: specBroadcastTargets rest ln

theorem connectNotifyToOthers_targets (ms : List Member) (ln cid : String)
    (g c : String → Option String) :
    (ClientManager.ConnectNotifyToOthers ms ln g c cid).1 = specBroadcastTargets ms ln := by
  induction ms with
  | nil => rfl
  | cons m rest ih =>
    by_cases h : m.Name = ln <;>
      simp [ClientManager.ConnectNotifyToOthers, specBroadcastTargets, h, ih]

theorem raftApplyToOthers_targets (ms : List Member) (ln : String)
    (g c : String → Option String) (msg : Message) :
    (ClientManager.RaftApplyToOthers ms ln g c msg).1 = specBroadcastTargets ms ln := by
  induction ms with
  | nil => rfl
  | cons m rest ih =>
    by_cases h : m.Name = ln <;>
      simp [ClientManager.RaftApplyToOthers, specBroadcastTargets, h, ih]

theorem raftJoinToOthers_targets (ms : List Member) (ln : String)
    (g c : String → Option String) :
    (ClientManager.RaftJoinToOthers ms ln g c).1 = specBroadcastTargets ms ln := by
  induction ms with
  | nil => rfl
  | cons m rest ih =>
    by_cases h : m.Name = ln <;>
      simp [ClientManager.RaftJoinToOthers, specBroadcastTargets, h, ih]

/-- Claim C1, evaluation at the failing input: a freshly constructed
service is started successfully (listener created, serve goroutine
spawned), yet the subsequent `StopRpcServer` performs no graceful stop,
because `StartRpcServer` binds the new `grpc.Server` to a local variable
and never assigns the field `s.grpcServer`, which therefore stays nil. The
idempotent never-started no-op part of the claim does hold. -/
theorem C1_stop_after_successful_start_is_noop :
    (NewRpcService.StartRpcServer none).returnedErr = none ∧
    (NewRpcService.StartRpcServer none).serveTaskStarted = true ∧
    StopRpcServer (some (NewRpcService.StartRpcServer none).svc) = false ∧
    StopRpcServer (some NewRpcService) = false ∧
    StopRpcServer none = false := by
  decide

/-- Claim C2, counterexample: two `RaftApply` requests that differ only in
the wire field `Action` deliver messages with different kinds, so the
delivered kind is not a function of the RPC method alone. -/
theorem C2_kind_counterexample :
    deliveredKind (RpcService.RaftApply { Action := 1, NodeId := "A", Filter := [] }) = some 1 ∧
    deliveredKind (RpcService.RaftApply { Action := 2, NodeId := "A", Filter := [] }) = some 2 ∧
    (1 : Nat) ≠ 2 := by
  exact ⟨rfl, rfl, by decide⟩

/-- Claim C2 as amended: for `PublishPacket`, `ConnectNotify` and
`RaftJoin` the delivered kind is a function of the RPC method alone, equal
across any two requests; for `RaftApply` the delivered kind is
`uint8(req.Action)`, taken from the wire. -/
theorem C2_kind_amended (r₁ r₂ : PublishRequest) (c₁ c₂ : ConnectRequest)
    (j₁ j₂ : JoinRequest) (a : ApplyRequest) :
    deliveredKind (RpcService.PublishPacket r₁) = deliveredKind (RpcService.PublishPacket r₂) ∧
    deliveredKind (RpcService.ConnectNotify c₁) = deliveredKind (RpcService.ConnectNotify c₂) ∧
    deliveredKind (RpcService.RaftJoin j₁) = deliveredKind (RpcService.RaftJoin j₂) ∧
    deliveredKind (RpcService.RaftApply a) = some (a.Action % 256) := by
  exact ⟨rfl, rfl, rfl, rfl⟩

/-- Claim C3, counterexample: when `ConnectNotifyToNode` fails to acquire
a client from the pool it returns silently, emitting zero structured log
events rather than exactly one. -/
theorem C3_connect_notify_counterexample :
    ClientManager.ConnectNotifyToNode (some "node not found") none "B" "c1" = [] ∧
    (ClientManager.ConnectNotifyToNode (some "node not found") none "B" "c1").length ≠ 1 := by
  exact ⟨rfl, by decide⟩

/-- Claim C3 as amended: on an RPC-call failure each of the four relay
operations emits exactly one structured log event with the operation name,
the target node id, the client id where applicable, and the error; on a
pool-acquisition failure `RelayPublishPacket`, `RelayRaftApply` and
`RelayRaftJoin` emit exactly one event carrying the operation
"get grpc client" and the error but no node id, while
`ConnectNotifyToNode` emits no log event at all. -/
theorem C3_failure_logging_amended (e nodeId clientId : String) (msg : Message) :
    ClientManager.RelayPublishPacket (some e) none nodeId msg =
      [{ op := "get grpc client", nodeId := none, clientId := none, err := some e }] ∧
    ClientManager.RelayPublishPacket none (some e) nodeId msg =
      [{ op := "relay publish packet", nodeId := some nodeId,
         clientId := some msg.ClientID, err := some e }] ∧
    ClientManager.ConnectNotifyToNode (some e) none nodeId clientId = [] ∧
    ClientManager.ConnectNotifyToNode none (some e) nodeId clientId =
      [{ op := "connection notification", nodeId := some nodeId,
         clientId := some clientId, err := some e }] ∧
    ClientManager.RelayRaftApply (some e) none nodeId msg =
      [{ op := "get grpc client", nodeId := none, clientId := none, err := some e }] ∧
    ClientManager.RelayRaftApply none (some e) nodeId msg =
      [{ op := "to leader do apply", nodeId := some nodeId, clientId := none, err := some e }] ∧
    ClientManager.RelayRaftJoin (some e) none nodeId =
      [{ op := "get grpc client", nodeId := none, clientId := none, err := some e }] ∧
    ClientManager.RelayRaftJoin none (some e) nodeId =
      [{ op := "raft join", nodeId := some nodeId, clientId := none, err := some e }] := by
  exact ⟨rfl, rfl, rfl, rfl, rfl, rfl, rfl, rfl⟩

/-- Claim C6: each broadcast helper visits, in snapshot order, exactly the
entries of the snapshot whose name differs from the local name; the
visited targets do not depend on the per-peer failure oracles, so a
failure toward one peer never prevents the calls to the remaining peers;
an empty snapshot and a self-only snapshot yield no RPC at all. -/
theorem C6_broadcast_helpers (ms : List Member) (ln cid a : String)
    (g₁ c₁ g₂ c₂ : String → Option String) (msg : Message) :
    (ClientManager.ConnectNotifyToOthers ms ln g₁ c₁ cid).1 = specBroadcastTargets ms ln ∧
    (ClientManager.RaftApplyToOthers ms ln g₁ c₁ msg).1 = specBroadcastTargets ms ln ∧
    (ClientManager.RaftJoinToOthers ms ln g₁ c₁).1 = specBroadcastTargets ms ln ∧
    (ClientManager.ConnectNotifyToOthers ms ln g₁ c₁ cid).1 =
      (ClientManager.ConnectNotifyToOthers ms ln g₂ c₂ cid).1 ∧
    (ClientManager.RaftApplyToOthers ms ln g₁ c₁ msg).1 =
      (ClientManager.RaftApplyToOthers ms ln g₂ c₂ msg).1 ∧
    (ClientManager.RaftJoinToOthers ms ln g₁ c₁).1 =
      (ClientManager.RaftJoinToOthers ms ln g₂ c₂).1 ∧
    ClientManager.ConnectNotifyToOthers [] ln g₁ c₁ cid = ([], []) ∧
    ClientManager.RaftApplyToOthers [] ln g₁ c₁ msg = ([], []) ∧
    ClientManager.RaftJoinToOthers [] ln g₁ c₁ = ([], []) ∧
    ClientManager.ConnectNotifyToOthers [⟨ln, a⟩] ln g₁ c₁ cid = ([], []) ∧
    ClientManager.RaftApplyToOthers [⟨ln, a⟩] ln g₁ c₁ msg = ([], []) ∧
    ClientManager.RaftJoinToOthers [⟨ln, a⟩] ln g₁ c₁ = ([], []) := by
  refine ⟨connectNotifyToOthers_targets ms ln cid g₁ c₁,
    raftApplyToOthers_targets ms ln g₁ c₁ msg,
    raftJoinToOthers_targets ms ln g₁ c₁,
    ?_, ?_, ?_, rfl, rfl, rfl, ?_, ?_, ?_⟩
  · rw [connectNotifyToOthers_targets, connectNotifyToOthers_targets]
  · rw [raftApplyToOthers_targets, raftApplyToOthers_targets]
  · rw [raftJoinToOthers_targets, raftJoinToOthers_targets]
  · simp [ClientManager.ConnectNotifyToOthers]
  · simp [ClientManager.RaftApplyToOthers]
  · simp [ClientManager.RaftJoinToOthers]

/-- Claim C8: every inbound handler delivers exactly one message to the
local sink, returns the response with `Ok = true`, and returns a nil
error, for every request value. -/
theorem C8_handlers_deliver_once_and_succeed (p : PublishRequest) (c : ConnectRequest)
    (a : ApplyRequest) (j : JoinRequest) :
    ((RpcService.PublishPacket p).sent.length = 1 ∧
      (RpcService.PublishPacket p).resp = { Ok := true } ∧
      (RpcService.PublishPacket p).err = none) ∧
    ((RpcService.ConnectNotify c).sent.length = 1 ∧
      (RpcService.ConnectNotify c).resp = { Ok := true } ∧
      (RpcService.ConnectNotify c).err = none) ∧
    ((RpcService.RaftApply a).sent.length = 1 ∧
      (RpcService.RaftApply a).resp = { Ok := true } ∧
      (RpcService.RaftApply a).err = none) ∧
    ((RpcService.RaftJoin j).sent.length = 1 ∧
      (RpcService.RaftJoin j).resp = { Ok := true } ∧
      (RpcService.RaftJoin j).err = none) := by
  exact ⟨⟨rfl, rfl, rfl⟩, ⟨rfl, rfl, rfl⟩, ⟨rfl, rfl, rfl⟩, ⟨rfl, rfl, rfl⟩⟩

/-- Claim C9: a listener-creation error is returned synchronously with no
handler registration and no serving task; on success nil is returned, the
handlers are registered, the serving task runs, and a later serve error
only produces one log event (nothing is returned to the start caller). -/
theorem C9_start_error_handling (s : RpcService) (e e' : String) :
    (s.StartRpcServer (some e)).returnedErr = some e ∧
    (s.StartRpcServer (some e)).handlersRegistered = false ∧
    (s.StartRpcServer (some e)).serveTaskStarted = false ∧
    (s.StartRpcServer none).returnedErr = none ∧
    (s.StartRpcServer none).handlersRegistered = true ∧
    (s.StartRpcServer none).serveTaskStarted = true ∧
    serveTask (some e') =
      [{ op := "grpc server serve", nodeId := none, clientId := none, err := some e' }] ∧
    serveTask none = [] := by
  exact ⟨rfl, rfl, rfl, rfl, rfl, rfl, rfl, rfl⟩

/-- Claim C10: the handlers narrow 32-bit wire fields to 8 bits modulo
256 — the delivered protocol version is `req.ProtocolVersion % 256`, the
delivered apply kind is `req.Action % 256` — and bumping the field by any
multiple of 256 leaves the whole handler outcome unchanged. -/
theorem C10_uint8_narrowing (p : PublishRequest) (a : ApplyRequest) (k : Nat) :
    (RpcService.PublishPacket p).sent.map Message.ProtocolVersion =
      [p.ProtocolVersion % 256] ∧
    (RpcService.RaftApply a).sent.map Message.mtype = [a.Action % 256] ∧
    RpcService.PublishPacket { p with ProtocolVersion := p.ProtocolVersion + 256 * k } =
      RpcService.PublishPacket p ∧
    RpcService.RaftApply { a with Action := a.Action + 256 * k } = RpcService.RaftApply a := by
  refine ⟨rfl, rfl, ?_, ?_⟩
  · simp [RpcService.PublishPacket, Nat.add_mul_mod_self_left]
  · simp [RpcService.RaftApply, Nat.add_mul_mod_self_left]

/-- Concrete well-formed message used to exercise the apply round trip. -/
def mApply : Message :=
  { mtype := 1, NodeID := "A", ClientID := "c1", ProtocolVersion := 5, Payload := [1, 2] }

/-- Claim C7, counterexample: round-tripping a message through
`RelayRaftApply` and the `RaftApply` handler does not preserve the client
id — `ApplyRequest` carries no client-id field, so the handler delivers a
message whose `ClientID` is the empty string, not the original "c1" (the
protocol version is likewise zeroed). -/
theorem C7_roundtrip_counterexample :
    Message.WF mApply ∧
    (RpcService.RaftApply (applyReqOfMsg mApply)).sent.map Message.ClientID = [""] ∧
    (RpcService.RaftApply (applyReqOfMsg mApply)).sent.map Message.ProtocolVersion = [0] ∧
    mApply.ClientID = "c1" ∧ mApply.ProtocolVersion = 5 := by
  refine ⟨by decide, rfl, rfl, rfl, rfl⟩

/-- Claim C7 as amended: for any well-formed message, the publish round
trip (`RelayPublishPacket` request construction followed by the
`PublishPacket` handler) preserves the origin node id, client id, protocol
version and payload byte-for-byte and stamps the kind `packets.Publish`;
the apply round trip preserves the origin node id, the action and the
payload byte-for-byte, while the client id and protocol version are not
transmitted and come back as their zero values. -/
theorem C7_roundtrip_amended (m : Message) (h : m.WF) :
    (RpcService.PublishPacket (publishReqOfMsg m)).sent =
      [{ mtype := packetsPublish, NodeID := m.NodeID, ClientID := m.ClientID,
         ProtocolVersion := m.ProtocolVersion, Payload := m.Payload }] ∧
    (RpcService.RaftApply (applyReqOfMsg m)).sent =
      [{ mtype := m.mtype, NodeID := m.NodeID, ClientID := "",
         ProtocolVersion := 0, Payload := m.Payload }] := by
  obtain ⟨ht, hp⟩ := h
  have hdvd : (256 : Nat) ∣ 4294967296 := ⟨16777216, by norm_num⟩
  have h1 : m.ProtocolVersion % 4294967296 % 256 = m.ProtocolVersion := by
    rw [Nat.mod_mod_of_dvd _ hdvd, Nat.mod_eq_of_lt hp]
  have h2 : m.mtype % 4294967296 % 256 = m.mtype := by
    rw [Nat.mod_mod_of_dvd _ hdvd, Nat.mod_eq_of_lt ht]
  exact ⟨by simp [RpcService.PublishPacket, publishReqOfMsg, h1],
    by simp [RpcService.RaftApply, applyReqOfMsg, h2]⟩

/-- Witness for the amended round-trip law at a concrete message. -/
theorem C7_roundtrip_amended_witness :
    Message.WF { mtype := 2, NodeID := "A", ClientID := "c9", ProtocolVersion := 5,
                 Payload := [222, 173, 190, 239] } ∧
    ((RpcService.PublishPacket (publishReqOfMsg
        { mtype := 2, NodeID := "A", ClientID := "c9", ProtocolVersion := 5,
          Payload := [222, 173, 190, 239] })).sent =
      [{ mtype := packetsPublish, NodeID := "A", ClientID := "c9",
         ProtocolVersion := 5, Payload := [222, 173, 190, 239] }] ∧
    (RpcService.RaftApply (applyReqOfMsg
        { mtype := 2, NodeID := "A", ClientID := "c9", ProtocolVersion := 5,
          Payload := [222, 173, 190, 239] })).sent =
      [{ mtype := 2, NodeID := "A", ClientID := "",
         ProtocolVersion := 0, Payload := [222, 173, 190, 239] }]) :=
  ⟨by decide,
    C7_roundtrip_amended
      { mtype := 2, NodeID := "A", ClientID := "c9", ProtocolVersion := 5,
        Payload := [222, 173, 190, 239] } (by decide)⟩

theorem csLookup_mem {cs : List (String × PoolClient)} {k : String} {v : PoolClient}
    (h : csLookup cs k = some v) : (k, v) ∈ cs := by
  induction cs with
  | nil => simp [csLookup] at h
  | cons p rest ih =>
    obtain ⟨pk, pv⟩ := p
    by_cases hk : pk = k
    · subst hk
      simp [csLookup] at h
      subst h
      exact List.mem_cons_self _ _
    · simp only [csLookup, if_neg hk] at h
      exact List.mem_cons_of_mem _ (ih h)

theorem csLookup_erase_self (cs : List (String × PoolClient)) (k : String) :
    csLookup (csErase cs k) k = none := by
  induction cs with
  | nil => rfl
  | cons p rest ih =>
    obtain ⟨pk, pv⟩ := p
    by_cases hk : pk = k
    · simpa [csErase, hk] using ih
    · simp [csErase, csLookup, hk, ih]

/-- Claim C4: once `getClient` has returned an entry, a repeated `getClient`
for the same node id returns the same instance and leaves the state
untouched; `RemoveGrpcClient` then evicts the entry and closes exactly its
connection; a second remove (and any remove of an absent id) is a silent
no-op; and a successful `getClient` after the removal returns a freshly
dialed instance, distinct from the removed one. -/
theorem C4_pool_cache_and_remove (env : Env) (cm : ClientManager) (n : String)
    (c : PoolClient) (cm' : ClientManager)
    (hget : ClientManager.getClient env cm n = (Except.ok c, cm'))
    (hinv : PoolInv cm) :
    ClientManager.getClient env cm' n = (Except.ok c, cm') ∧
    cm'.RemoveGrpcClient n =
      { cm' with cs := csErase cm'.cs n, closed := c.connId :: cm'.closed } ∧
    csLookup (cm'.RemoveGrpcClient n).cs n = none ∧
    (cm'.RemoveGrpcClient n).RemoveGrpcClient n = cm'.RemoveGrpcClient n ∧
    (∀ cmx : ClientManager, csLookup cmx.cs n = none → cmx.RemoveGrpcClient n = cmx) ∧
    (∀ c₂ cm₂, ClientManager.getClient env (cm'.RemoveGrpcClient n) n = (Except.ok c₂, cm₂) →
      c₂.connId = cm'.nextConn ∧ c₂ ≠ c) := by
  have key : csLookup cm'.cs n = some c ∧ c.connId < cm'.nextConn := by
    rcases hcs : csLookup cm.cs n with _ | sc
    · rcases haddr : getNodeAddr env n with _ | addr
      · simp [ClientManager.getClient, hcs, haddr] at hget
      · by_cases he : addr = ""
        · simp [ClientManager.getClient, hcs, haddr, he] at hget
        · by_cases hd : env.dialOk addr
          · simp [ClientManager.getClient, hcs, haddr, he, hd] at hget
            obtain ⟨h1, h2⟩ := hget
            subst h2
            constructor
            · simp [csLookup, ← h1]
            · simp [← h1]
          · simp [ClientManager.getClient, hcs, haddr, he, hd] at hget
    · simp [ClientManager.getClient, hcs] at hget
      obtain ⟨h1, h2⟩ := hget
      subst h2
      subst h1
      exact ⟨hcs, hinv _ (csLookup_mem hcs)⟩
  obtain ⟨hlook, hlt⟩ := key
  have hrem : cm'.RemoveGrpcClient n =
      { cm' with cs := csErase cm'.cs n, closed := c.connId :: cm'.closed } := by
    simp [ClientManager.RemoveGrpcClient, hlook]
  have hnone : csLookup (cm'.RemoveGrpcClient n).cs n = none := by
    rw [hrem]
    exact csLookup_erase_self cm'.cs n
  have hnoop : ∀ cmx : ClientManager, csLookup cmx.cs n = none → cmx.RemoveGrpcClient n = cmx := by
    intro cmx hx
    simp [ClientManager.RemoveGrpcClient, hx]
  have hnext : (cm'.RemoveGrpcClient n).nextConn = cm'.nextConn := by
    rw [hrem]
  refine ⟨?_, hrem, hnone, hnoop _ hnone, hnoop, ?_⟩
  · simp [ClientManager.getClient, hlook]
  · intro c₂ cm₂ h2
    rcases haddr : getNodeAddr env n with _ | addr
    · simp [ClientManager.getClient, hnone, haddr] at h2
    · by_cases he : addr = ""
      · simp [ClientManager.getClient, hnone, haddr, he] at h2
      · by_cases hd : env.dialOk addr
        · simp [ClientManager.getClient, hnone, haddr, he, hd] at h2
          obtain ⟨hc2, _⟩ := h2
          have hc2id : c₂.connId = cm'.nextConn := by
            rw [← hc2, hnext]
          refine ⟨hc2id, ?_⟩
          intro hcc
          rw [hcc] at hc2id
          exact absurd hc2id (Nat.ne_of_lt hlt)
        · simp [ClientManager.getClient, hnone, haddr, he, hd] at h2

/-- Empty pool state used by the concrete witnesses. -/
def cmEmpty : ClientManager := { cs := [], nextConn := 0, closed := [] }

/-- Environment with one reachable peer "B", used by the C4 witness. -/
def envW4 : Env :=
  { members := [{ Name := "B", grpcAddr := "10.0.0.2:17946" }],
    localName := "A", dialOk := fun _ => true }

/-- Pool state holding the entry dialed for "B" from `cmEmpty`. -/
def cm1W : ClientManager := { cs := [("B", ⟨0⟩)], nextConn := 1, closed := [] }

/-- Witness for the pool lifecycle theorem at a concrete one-peer
environment. -/
theorem C4_pool_cache_and_remove_witness :
    (ClientManager.getClient envW4 cmEmpty "B" = (Except.ok ⟨0⟩, cm1W) ∧ PoolInv cmEmpty) ∧
    (ClientManager.getClient envW4 cm1W "B" = (Except.ok ⟨0⟩, cm1W) ∧
      cm1W.RemoveGrpcClient "B" =
        { cm1W with cs := csErase cm1W.cs "B",
                    closed := (0 : Nat) :: cm1W.closed } ∧
      csLookup (cm1W.RemoveGrpcClient "B").cs "B" = none ∧
      (cm1W.RemoveGrpcClient "B").RemoveGrpcClient "B" = cm1W.RemoveGrpcClient "B" ∧
      (∀ cmx : ClientManager, csLookup cmx.cs "B" = none → cmx.RemoveGrpcClient "B" = cmx) ∧
      (∀ c₂ cm₂,
        ClientManager.getClient envW4 (cm1W.RemoveGrpcClient "B") "B" = (Except.ok c₂, cm₂) →
          c₂.connId = cm1W.nextConn ∧ c₂ ≠ ⟨0⟩)) :=
  ⟨⟨rfl, by simp [PoolInv, cmEmpty]⟩,
    C4_pool_cache_and_remove envW4 cmEmpty "B" ⟨0⟩ cm1W rfl (by simp [PoolInv, cmEmpty])⟩

/-- Claim C5, counterexample: with a cached entry for "B" in the pool,
`getClient` succeeds and never consults membership, even though the
membership directory has no record for "B" — so, as stated, get does not
fail with NodeNotFound exactly when the record is missing. -/
theorem C5_counterexample :
    getNodeMember ([] : List Member) "B" = none ∧
    ClientManager.getClient
      { members := [], localName := "A", dialOk := fun _ => false }
      { cs := [("B", ⟨0⟩)], nextConn := 1, closed := [] } "B" =
      (Except.ok ⟨0⟩, { cs := [("B", ⟨0⟩)], nextConn := 1, closed := [] }) :=
  ⟨rfl, rfl⟩

/-- Claim C5 as amended: when no entry for the node id is cached,
`getClient` fails with the "node not found" error exactly when the
membership directory has no record for the id or the projected address is
the empty string; and every failure (node-not-found or dial failure)
leaves the pool state unchanged, so a later get re-attempts resolution and
dialing. A cached entry, however, is returned without consulting
membership. -/
theorem C5_get_failure_conditions (env : Env) (cm : ClientManager) (n : String)
    (hmiss : csLookup cm.cs n = none) :
    ((ClientManager.getClient env cm n).1 = Except.error "node not found" ↔
      getNodeMember env.members n = none ∨ getNodeAddr env n = some "") ∧
    (∀ e cm₂, ClientManager.getClient env cm n = (Except.error e, cm₂) → cm₂ = cm) := by
  rcases haddr : getNodeAddr env n with _ | addr
  · have hmem : getNodeMember env.members n = none := by
      unfold getNodeAddr at haddr
      exact Option.map_eq_none.mp haddr
    constructor
    · simp [ClientManager.getClient, hmiss, haddr, hmem]
    · intro e cm₂ h
      simp [ClientManager.getClient, hmiss, haddr] at h
      exact h.2.symm
  · have hmem : getNodeMember env.members n ≠ none := by
      unfold getNodeAddr at haddr
      intro hx
      rw [hx] at haddr
      exact Option.noConfusion haddr
    by_cases he : addr = ""
    · subst he
      constructor
      · simp [ClientManager.getClient, hmiss, haddr]
      · intro e cm₂ h
        simp [ClientManager.getClient, hmiss, haddr] at h
        exact h.2.symm
    · by_cases hd : env.dialOk addr
      · constructor
        · simp [ClientManager.getClient, hmiss, haddr, he, hd, hmem]
        · intro e cm₂ h
          simp [ClientManager.getClient, hmiss, haddr, he, hd] at h
      · constructor
        · simp [ClientManager.getClient, hmiss, haddr, he, hd, hmem]
        · intro e cm₂ h
          simp [ClientManager.getClient, hmiss, haddr, he, hd] at h
          exact h.2.symm

/-- Environment whose only member projects to the empty address, used by
the C5 witness. -/
def envW5 : Env :=
  { members := [{ Name := "B", grpcAddr := "" }], localName := "A", dialOk := fun _ => true }

/-- Witness for the amended failure-condition theorem: the member record
for "B" exists but its address projects to the empty string, so the
cache-miss get fails with "node not found" and changes nothing. -/
theorem C5_get_failure_conditions_witness :
    csLookup cmEmpty.cs "B" = none ∧
    (((ClientManager.getClient envW5 cmEmpty "B").1 = Except.error "node not found" ↔
       getNodeMember envW5.members "B" = none ∨ getNodeAddr envW5 "B" = some "") ∧
     (∀ e cm₂, ClientManager.getClient envW5 cmEmpty "B" = (Except.error e, cm₂) →
        cm₂ = cmEmpty)) :=
  ⟨rfl, C5_get_failure_conditions envW5 cmEmpty "B" rfl⟩

end Comqtt
